import Mathlib

/-!
Verification of the issue-importer batch pipeline (index.js).

We shallowly embed the record normalization, validation and per-record
creation pipeline of the importer:

* `parseLabels` / `parseAssignees`   — field normalizers,
* `resolveMilestone`                 — milestone reference resolution,
* `validateAssignees`                — remote collaborator filtering,
* `validateIssue`                    — per-record validation/normalization,
* `createIssue`                      — dry-run / remote creation,
* `runImport`                        — the orchestrating loop with its summary.

Modelling decisions:

* Loosely-typed JavaScript field values are modelled by `JVal`.  JSON objects
  appearing as field values are collapsed into a single opaque constructor
  `vObj` (no claim distinguishes between objects); numbers are exact `Int`
  (no claim involves fractional values or precision loss; `NaN` does not
  arise on the modelled paths).
* Remote calls are modelled by oracle functions passed in explicitly
  (`String → CheckResult` for the collaborator check, `Payload → CreateResult`
  for issue creation).  Each embedded operation additionally returns the list
  of remote calls it performed, so "zero remote calls" claims are statable.
* Log output: warnings are returned as lists of strings.  The emoji prefixes
  and the single-quote characters around interpolated names in the JS
  template literals are elided from the modelled warning texts; the
  structure (which message fires, and the interpolated data) is preserved.
* JavaScript string whitespace trimming is modelled with `Char.isWhitespace`.
* The fixed 100ms inter-request pause of the loop is timing behaviour with
  no observable effect on outcomes and is not modelled.
-/

namespace IssueImporter

/-- A loosely typed JavaScript/JSON field value as it appears in a raw
record. `vNull` stands for both `null` and `undefined` (absent field). -/
inductive JVal where
  | vNull
  | vStr (s : String)
  | vNum (n : Int)
  | vBool (b : Bool)
  | vArr (xs : List JVal)
  | vObj
  deriving Repr

/-- JavaScript truthiness of a `JVal` (`!v` in the source is `!isTruthy v`). -/
def isTruthy : JVal → Bool
  | .vNull => false
  | .vStr s => s != ""
  | .vNum n => n != 0
  | .vBool b => b
  | .vArr _ => true
  | .vObj => true

/-- The source replaces every semicolon with a comma via
`labels.replace(/;/g, ',')`; since both pattern and replacement are single
characters this is a character map. -/
def semiToComma (c : Char) : Char := if c = ';' then ',' else c

/-- Split a character list on commas, as `String.prototype.split(',')` does:
the empty input yields one empty piece. -/
def splitOnComma : List Char → List (List Char)
  | [] => [[]]
  | c :: rest =>
    if c = ',' then [] :: splitOnComma rest
    else
      match splitOnComma rest with
      | [] => [[c]]
      | g :: gs => (c :: g) :: gs

/-- Whitespace trimming of both ends, modelling `String.prototype.trim()`. -/
def trimChars (cs : List Char) : List Char :=
  ((cs.dropWhile Char.isWhitespace).reverse.dropWhile Char.isWhitespace).reverse

/-- `trim` on strings. -/
def jsTrim (s : String) : String := String.mk (trimChars s.data)

/-- The string branch shared by `parseLabels` and `parseAssignees`:
replace semicolons with commas, split on commas, trim each piece, drop
pieces that are empty after trimming. -/
def normStr (s : String) : List String :=
  ((splitOnComma (s.data.map semiToComma)).map
    (fun cs => String.mk (trimChars cs))).filter (fun p => p != "")

/-- `parseLabels` from index.js: falsy input gives `[]`; an array keeps its
truthy string elements; a string is split/trimmed; anything else gives `[]`. -/
def parseLabels (labels : JVal) : List String :=
  if isTruthy labels = false then []
  else
    match labels with
    | .vArr xs =>
      xs.filterMap (fun x =>
        match x with
        | .vStr s => if s != "" then some s else none
        | _ => none)
    | .vStr s => normStr s
    | _ => []

/-- `parseAssignees` from index.js; its body is identical to `parseLabels`. -/
def parseAssignees (assignees : JVal) : List String :=
  if isTruthy assignees = false then []
  else
    match assignees with
    | .vArr xs =>
      xs.filterMap (fun x =>
        match x with
        | .vStr s => if s != "" then some s else none
        | _ => none)
    | .vStr s => normStr s
    | _ => []

/-- Digit-sequence value, used by the model of `parseInt`. -/
def digitsToNat (cs : List Char) : Nat :=
  cs.foldl (fun a c => a * 10 + (c.toNat - 48)) 0

/-- Model of JavaScript `parseInt(s, 10)` on a string argument: skip leading
whitespace, read an optional sign and then the longest digit run; `none`
models `NaN` (no digits found).  Leading zeros are consumed but collapse in
the resulting value, trailing non-digit characters are ignored. -/
def jsParseInt (s : String) : Option Int :=
  let body : List Char → Option Int := fun cs =>
    let ds := cs.takeWhile Char.isDigit
    if ds = [] then none else some ((digitsToNat ds : Int))
  match s.data.dropWhile Char.isWhitespace with
  | '-' :: rest => (body rest).map (fun n => -n)
  | '+' :: rest => body rest
  | cs => body cs

mutual
/-- JavaScript `String(v)` / `v.toString()` conversion, as far as the
resolution path needs it (arrays render as their comma-joined elements with
`null`/`undefined` elements rendered empty; objects as "[object Object]"). -/
def jsToString : JVal → String
  | .vNull => "null"
  | .vStr s => s
  | .vNum n => toString n
  | .vBool b => if b then "true" else "false"
  | .vArr xs => jsArrToString xs
  | .vObj => "[object Object]"

/-- Comma-joined rendering of array elements (`Array.prototype.toString`). -/
def jsArrToString : List JVal → String
  | [] => ""
  | [.vNull] => ""
  | [.vStr s] => s
  | [.vNum n] => toString n
  | [.vBool b] => if b then "true" else "false"
  | [.vArr xs] => jsArrToString xs
  | [.vObj] => "[object Object]"
  | .vNull :: rest => "," ++ jsArrToString rest
  | .vStr s :: rest => s ++ "," ++ jsArrToString rest
  | .vNum n :: rest => toString n ++ "," ++ jsArrToString rest
  | .vBool b :: rest => (if b then "true" else "false") ++ "," ++ jsArrToString rest
  | .vArr xs :: rest => jsArrToString xs ++ "," ++ jsArrToString rest
  | .vObj :: rest => "[object Object]" ++ "," ++ jsArrToString rest
end

/-- The milestone map built once per run: milestone title → number. -/
def MilestoneMap := List (String × Int)

/-- `milestoneMap.has(v)` / `.get(v)` — `Map` keys are the string titles, so
a non-string key is never found (strict-equality key comparison). -/
def mapGet (map : MilestoneMap) (v : JVal) : Option Int :=
  match v with
  | .vStr s => List.lookup s map
  | _ => none

/-- The warning text logged when a milestone reference resolves to nothing. -/
def milestoneWarning (v : JVal) : String :=
  "Milestone \"" ++ jsToString v ++
    "\" not found in repository. Issue will be created without milestone."

/-- `resolveMilestone` from index.js.  Returns the resolved milestone number
(or `none`) together with the list of warnings logged. -/
def resolveMilestone (milestone : JVal) (map : MilestoneMap) :
    Option Int × List String :=
  if isTruthy milestone = false then (none, [])
  else
    match milestone with
    | .vNum n => (some n, [])
    | _ =>
      let mstr := jsToString milestone
      let canonical : Option Int :=
        match jsParseInt mstr with
        | some p => if toString p = mstr then some p else none
        | none => none
      match canonical with
      | some p => (some p, [])
      | none =>
        match mapGet map milestone with
        | some n => (some n, [])
        | none => (none, [milestoneWarning milestone])

/-- Result of the remote collaborator check `repos.checkCollaborator`:
success, or a thrown request error carrying an HTTP status and a message. -/
inductive CheckResult where
  | ok
  | err (status : Option Int) (message : String)
  deriving Repr, DecidableEq

/-- Whether the collaborator check succeeded. -/
def CheckResult.isOk : CheckResult → Bool
  | .ok => true
  | .err _ _ => false

/-- The warning logged when an assignee is dropped (quote characters and
emoji prefix of the JS template elided, see the header note). -/
def assigneeWarning (a : String) : CheckResult → String
  | .err (some 404) _ =>
    "Assignee " ++ a ++ " is not a collaborator of this repository. Skipping."
  | .err _ msg =>
    "Could not validate assignee " ++ a ++ ": " ++ msg ++ ". Skipping."
  | .ok => ""

/-- Result of validating a candidate list: the kept usernames, the remote
queries issued (one username per `checkCollaborator` round-trip, in call
order) and the warnings logged. -/
structure AssigneeLog where
  valid : List String
  queries : List String
  warnings : List String
  deriving Repr, DecidableEq

/-- The `for..of` loop of `validateAssignees`. -/
def validateLoop (check : String → CheckResult) : List String → AssigneeLog
  | [] => ⟨[], [], []⟩
  | a :: rest =>
    let r := validateLoop check rest
    match check a with
    | .ok => ⟨a :: r.valid, a :: r.queries, r.warnings⟩
    | .err st msg => ⟨r.valid, a :: r.queries, assigneeWarning a (.err st msg) :: r.warnings⟩

/-- `validateAssignees` from index.js.  `none` models an `undefined`
argument; an empty or absent candidate list short-circuits before the loop. -/
def validateAssignees (check : String → CheckResult) :
    Option (List String) → AssigneeLog
  | none => ⟨[], [], []⟩
  | some [] => ⟨[], [], []⟩
  | some l => validateLoop check l

/-- A raw input record: the fields of interest of one CSV row or JSON array
element, each a loosely typed value (`vNull` = field absent). -/
structure RawRecord where
  title : JVal := .vNull
  body : JVal := .vNull
  description : JVal := .vNull
  labels : JVal := .vNull
  assignees : JVal := .vNull
  milestone : JVal := .vNull

/-- The validated, creation-ready issue built by `validateIssue`. -/
structure NormalizedIssue where
  title : String
  body : JVal
  labels : List String
  assignees : List String
  milestone : Option Int

/-- JavaScript `a || b`. -/
def jsOr (a b : JVal) : JVal := if isTruthy a then a else b

/-- The guard `!issue.title || typeof issue.title !== 'string' ||
issue.title.trim() === ''` of `validateIssue`. -/
def badTitle : JVal → Bool
  | .vStr s => s == "" || jsTrim s == ""
  | _ => true

/-- The `ValidationError` message thrown for an invalid title. -/
def titleError (index : Nat) : String :=
  "Issue at index " ++ toString index ++ " is missing a valid title"

/-- Result of validating one raw record: the thrown error or the normalized
issue, plus the remote queries issued and the warnings logged on the way. -/
structure ValidateLog where
  result : Except String NormalizedIssue
  queries : List String
  warnings : List String

/-- `validateIssue` from index.js: the title check runs first and throws
before any remote call; then the assignee candidates are parsed and checked
remotely, and the normalized issue is assembled. -/
def validateIssue (check : String → CheckResult) (r : RawRecord) (index : Nat)
    (map : MilestoneMap) : ValidateLog :=
  if badTitle r.title then
    ⟨.error (titleError index), [], []⟩
  else
    let parsedAssignees := parseAssignees r.assignees
    let alog := validateAssignees check (some parsedAssignees)
    let (mil, mwarns) := resolveMilestone r.milestone map
    ⟨.ok
      { title := jsTrim (jsToString r.title)
        body := jsOr r.body (jsOr r.description (.vStr ""))
        labels := parseLabels r.labels
        assignees := alog.valid
        milestone := mil },
      alog.queries, alog.warnings ++ mwarns⟩

/-- One structured field-level error of a remote 422 validation failure
(`error.response.data.errors[i]`).  `message` is `none` when the field is
absent; the empty string is falsy under `err.message || 'Validation failed'`. -/
structure FieldError where
  field : String
  code : String
  message : Option String
  deriving Repr, DecidableEq

/-- The creation payload sent to `issues.create` (owner/repo are ambient).
`none` in an optional field means the key is absent from the payload. -/
structure Payload where
  title : String
  body : JVal
  labels : Option (List String)
  assignees : Option (List String)
  milestone : Option Int

/-- Result of the remote `issues.create` call: the created issue's number
and URL, or a thrown request error with status, message, optional structured
field errors and optional documentation URL. -/
inductive CreateResult where
  | success (number : Nat) (url : String)
  | failure (status : Option Int) (message : String)
      (errors : Option (List FieldError)) (docUrl : Option String)

/-- Per-record outcome. `created` / `dryRun` titles come from the normalized
issue (always strings); a `failed` built by the orchestrator's catch carries
the raw record's loosely typed best-effort title.  The constant
`number: 'DRY-RUN'` field of the JS dry-run object is not modelled. -/
inductive Outcome where
  | created (title : String) (number : Nat) (url : String)
  | dryRun (title : String)
  | failed (title : JVal) (error : String)

/-- Rendering of one structured field error:
`field + ": " + code + " - " + (message || 'Validation failed')`. -/
def fieldErrorText (e : FieldError) : String :=
  e.field ++ ": " ++ e.code ++ " - " ++
    (match e.message with
     | some m => if m = "" then "Validation failed" else m
     | none => "Validation failed")

/-- The `errorMessage` computed in `createIssue`'s catch: a 422 with
structured errors is reformatted, every other failure keeps its raw message. -/
def errorMessageOf (status : Option Int) (message : String)
    (errors : Option (List FieldError)) : String :=
  match status, errors with
  | some 422, some errs =>
    "Validation Failed: " ++ String.intercalate "; " (errs.map fieldErrorText)
  | _, _ => message

/-- The payload construction of `createIssue`: title and body always;
labels/assignees only when non-empty; milestone only when truthy (in
particular a resolved milestone number 0 is falsy and omitted). -/
def buildPayload (issue : NormalizedIssue) : Payload :=
  { title := issue.title
    body := issue.body
    labels := if issue.labels = [] then none else some issue.labels
    assignees := if issue.assignees = [] then none else some issue.assignees
    milestone :=
      match issue.milestone with
      | some n => if n = 0 then none else some n
      | none => none }

/-- `createIssue` from index.js, together with the list of remote create
calls performed (empty on the dry-run path). -/
def createIssue (create : Payload → CreateResult) (issue : NormalizedIssue)
    (dryRun : Bool) : Outcome × List Payload :=
  if dryRun then (.dryRun issue.title, [])
  else
    let payload := buildPayload issue
    match create payload with
    | .success num url => (.created issue.title num url, [payload])
    | .failure st msg errs _doc =>
      (.failed (.vStr issue.title) (errorMessageOf st msg errs), [payload])

/-- The remote collaborators of the oracle environment of one run. -/
structure Env where
  check : String → CheckResult
  create : Payload → CreateResult

/-- Processing of one record inside the orchestrator loop: validate, then
create; a validation error is caught and becomes a `failed` outcome carrying
`issues[i]?.title || 'Unknown'` and the error's message. -/
def processRecord (env : Env) (map : MilestoneMap) (dryRun : Bool)
    (r : RawRecord) (index : Nat) : Outcome :=
  match (validateIssue env.check r index map).result with
  | .error e => .failed (jsOr r.title (.vStr "Unknown")) e
  | .ok issue => (createIssue env.create issue dryRun).1

/-- The orchestrator's per-record loop, threading the record index and
accumulating outcomes, success count and failure count exactly as the
source's `for` loop does. -/
def runLoop (env : Env) (map : MilestoneMap) (dryRun : Bool) :
    List RawRecord → Nat → List Outcome × Nat × Nat
  | [], _ => ([], 0, 0)
  | r :: rest, i =>
    let result := processRecord env map dryRun r i
    let (results, s, f) := runLoop env map dryRun rest (i + 1)
    match result with
    | .created _ _ _ => (result :: results, s + 1, f)
    | .dryRun _ => (result :: results, s + 1, f)
    | .failed _ _ => (result :: results, s, f + 1)

/-- The run's aggregate result: outcome sequence, the two counts, the
summary line and whether the run is reported failed (`core.setFailed`). -/
structure RunResult where
  outcomes : List Outcome
  successCount : Nat
  failureCount : Nat
  summary : String
  setFailed : Bool

/-- The batch section of `run()` in index.js: process every record, compose
the summary string and decide the overall failure signal.  (File access,
input parsing and the outer catch are the peripheral glue outside this
model's scope.) -/
def runImport (env : Env) (map : MilestoneMap) (dryRun : Bool)
    (records : List RawRecord) : RunResult :=
  let res := runLoop env map dryRun records 0
  { outcomes := res.1
    successCount := res.2.1
    failureCount := res.2.2
    summary := "Import completed: " ++ toString res.2.1 ++ " successful, " ++
      toString res.2.2 ++ " failed"
    setFailed := decide (0 < res.2.2) && !dryRun }

/-- Claim-side reading of "a string whose entire content parses as an
integer": the whole string is an optionally signed run of decimal digits. -/
def entireContentInt (s : String) : Option Int :=
  match s.data with
  | '-' :: rest =>
    if !rest.isEmpty && rest.all Char.isDigit then some (-(digitsToNat rest : Int))
    else none
  | '+' :: rest =>
    if !rest.isEmpty && rest.all Char.isDigit then some ((digitsToNat rest : Int))
    else none
  | cs =>
    if !cs.isEmpty && cs.all Char.isDigit then some ((digitsToNat cs : Int))
    else none

/-- Claim-side predicate of C4: the title is missing, not a string, or blank
after trimming. -/
def titleInvalid : JVal → Prop
  | .vStr s => jsTrim s = ""
  | _ => True

/-- An outcome counted as a success by the orchestrator (`created` or
`dry-run` status). -/
def isSuccessOutcome : Outcome → Bool
  | .created _ _ _ => true
  | .dryRun _ => true
  | .failed _ _ => false

/-- The collaborator-check oracle of the spec's worked example: "alice" is a
collaborator, everyone else gets a 404. -/
def exampleCheck : String → CheckResult :=
  fun u => if u = "alice" then .ok else .err (some 404) "Not Found"

/-- A create oracle that always fails with a structured 422. -/
def failCreate : Payload → CreateResult :=
  fun _ => .failure (some 422) "Validation Failed"
    (some [⟨"title", "missing_field", none⟩]) none

/-- A benign environment: every user is a collaborator, creation succeeds. -/
def env0 : Env := ⟨fun _ => .ok, fun _ => .success 1 "https://example.invalid/1"⟩

/-- A record with a valid title and nothing else. -/
def r0 : RawRecord := ⟨.vStr "T", .vNull, .vNull, .vNull, .vNull, .vNull⟩

/-- A record with no title at all. -/
def badR : RawRecord := ⟨.vNull, .vNull, .vNull, .vNull, .vNull, .vNull⟩

/-- A normalized issue with empty collections and no milestone. -/
def issueEx : NormalizedIssue := ⟨"T", .vStr "", [], [], none⟩

/-- A normalized issue with one label and a milestone. -/
def issueEx2 : NormalizedIssue := ⟨"T", .vStr "b", ["l"], [], some 3⟩

/-- A normalized issue with no milestone and one assignee. -/
def issueEx3 : NormalizedIssue := ⟨"T", .vStr "b", [], ["alice"], none⟩

/- ------------------------------------------------------------------ -/
/- Helper lemmas                                                      -/
/- ------------------------------------------------------------------ -/

theorem semiToComma_idem (c : Char) : semiToComma (semiToComma c) = semiToComma c := by
  by_cases h : c = ';' <;> simp [semiToComma, h]

theorem normStr_map_semi (l : List Char) :
    normStr (String.mk (l.map semiToComma)) = normStr (String.mk l) := by
  have hf : semiToComma ∘ semiToComma = semiToComma := funext semiToComma_idem
  unfold normStr
  show ((splitOnComma ((l.map semiToComma).map semiToComma)).map _).filter _ = _
  rw [List.map_map, hf]

theorem parseAssignees_eq_parseLabels (v : JVal) : parseAssignees v = parseLabels v := rfl

theorem parseLabels_map_semi (s : String) :
    parseLabels (.vStr (String.mk (s.data.map semiToComma))) = parseLabels (.vStr s) := by
  obtain ⟨l⟩ := s
  by_cases hl : l = []
  · subst hl; rfl
  · have h1 : (String.mk (l.map semiToComma) != "") = true := by
      simp [String.ext_iff, hl]
    have h2 : (String.mk l != "") = true := by
      simp [String.ext_iff, hl]
    simp only [parseLabels, isTruthy, h1, h2]
    exact normStr_map_semi l

theorem parseLabels_num (n : Int) : parseLabels (.vNum n) = [] := by
  unfold parseLabels; split <;> rfl

theorem parseLabels_bool (b : Bool) : parseLabels (.vBool b) = [] := by
  unfold parseLabels; split <;> rfl

theorem validateLoop_valid (check : String → CheckResult) (l : List String) :
    (validateLoop check l).valid = l.filter (fun a => (check a).isOk) := by
  induction l with
  | nil => rfl
  | cons a rest ih =>
    unfold validateLoop
    cases h : check a <;> simp [h, CheckResult.isOk, ih, List.filter_cons]

theorem validateLoop_queries (check : String → CheckResult) (l : List String) :
    (validateLoop check l).queries = l := by
  induction l with
  | nil => rfl
  | cons a rest ih =>
    unfold validateLoop
    cases h : check a <;> simp [h, ih]

theorem validateAssignees_valid (check : String → CheckResult) (l : List String) :
    (validateAssignees check (some l)).valid = l.filter (fun a => (check a).isOk) := by
  cases l with
  | nil => rfl
  | cons a rest => exact validateLoop_valid check (a :: rest)

theorem validateAssignees_queries (check : String → CheckResult) (l : List String) :
    (validateAssignees check (some l)).queries = l := by
  cases l with
  | nil => rfl
  | cons a rest => exact validateLoop_queries check (a :: rest)

theorem runLoop_length (env : Env) (map : MilestoneMap) (dryRun : Bool)
    (records : List RawRecord) (i : Nat) :
    (runLoop env map dryRun records i).1.length = records.length := by
  induction records generalizing i with
  | nil => rfl
  | cons r rest ih =>
    unfold runLoop
    cases h : processRecord env map dryRun r i <;> simp [h, ih]

theorem runLoop_success_count (env : Env) (map : MilestoneMap) (dryRun : Bool)
    (records : List RawRecord) (i : Nat) :
    (runLoop env map dryRun records i).2.1 =
      (runLoop env map dryRun records i).1.countP isSuccessOutcome := by
  induction records generalizing i with
  | nil => rfl
  | cons r rest ih =>
    unfold runLoop
    cases h : processRecord env map dryRun r i <;>
      simp [h, ih, List.countP_cons, isSuccessOutcome]

theorem runLoop_failure_count (env : Env) (map : MilestoneMap) (dryRun : Bool)
    (records : List RawRecord) (i : Nat) :
    (runLoop env map dryRun records i).2.2 =
      (runLoop env map dryRun records i).1.countP (fun o => !isSuccessOutcome o) := by
  induction records generalizing i with
  | nil => rfl
  | cons r rest ih =>
    unfold runLoop
    cases h : processRecord env map dryRun r i <;>
      simp [h, ih, List.countP_cons, isSuccessOutcome]

theorem runLoop_getElem (env : Env) (map : MilestoneMap) (dryRun : Bool)
    (records : List RawRecord) (i j : Nat) :
    (runLoop env map dryRun records i).1[j]? =
      (records[j]?).map (fun r => processRecord env map dryRun r (i + j)) := by
  induction records generalizing i j with
  | nil => simp [runLoop]
  | cons r rest ih =>
    unfold runLoop
    cases j with
    | zero =>
      cases h : processRecord env map dryRun r i <;> simp [h]
    | succ j =>
      have harith : i + (j + 1) = (i + 1) + j := by omega
      cases h : processRecord env map dryRun r i <;>
        simp [h, ih, harith]

/- ------------------------------------------------------------------ -/
/- Claim theorems                                                     -/
/- ------------------------------------------------------------------ -/

/-- C5: the label/assignee normalizers treat commas and semicolons
equivalently — replacing every semicolon with a comma never changes the
result, and `normalize("a,b;c") = normalize("a;b,c") = ["a","b","c"]` — and
every degenerate input (undefined/null, the empty string, the empty
sequence, or any non-string non-sequence value) normalizes to `[]`. -/
theorem claim_C5_normalizers :
    (∀ s : String,
      parseLabels (.vStr (String.mk (s.data.map semiToComma))) = parseLabels (.vStr s) ∧
      parseAssignees (.vStr (String.mk (s.data.map semiToComma))) = parseAssignees (.vStr s)) ∧
    parseLabels (.vStr "a,b;c") = ["a", "b", "c"] ∧
    parseLabels (.vStr "a;b,c") = ["a", "b", "c"] ∧
    parseAssignees (.vStr "a,b;c") = ["a", "b", "c"] ∧
    parseAssignees (.vStr "a;b,c") = ["a", "b", "c"] ∧
    parseLabels .vNull = [] ∧
    parseLabels (.vStr "") = [] ∧
    parseLabels (.vArr []) = [] ∧
    (∀ n : Int, parseLabels (.vNum n) = []) ∧
    (∀ b : Bool, parseLabels (.vBool b) = []) ∧
    parseLabels .vObj = [] ∧
    parseAssignees .vNull = [] ∧
    parseAssignees (.vStr "") = [] ∧
    parseAssignees (.vArr []) = [] ∧
    (∀ n : Int, parseAssignees (.vNum n) = []) ∧
    (∀ b : Bool, parseAssignees (.vBool b) = []) ∧
    parseAssignees .vObj = [] := by
  refine ⟨fun s => ⟨parseLabels_map_semi s, ?_⟩, ?_, ?_, ?_, ?_, ?_, ?_, ?_,
    parseLabels_num, parseLabels_bool, ?_, ?_, ?_, ?_,
    fun n => (parseAssignees_eq_parseLabels _).trans (parseLabels_num n),
    fun b => (parseAssignees_eq_parseLabels _).trans (parseLabels_bool b), ?_⟩ <;>
    first
      | exact (parseAssignees_eq_parseLabels _).trans (parseLabels_map_semi s)
      | decide

/-- C6: assignee validation returns exactly the candidates whose
collaborator check succeeds, in original input order (a sublist of the
input), queries the remote check once per candidate in order, issues zero
queries for an empty or absent candidate sequence, and on the worked
example keeps "alice" while dropping "bob" with a warning. -/
theorem claim_C6_assignee_filtering :
    (∀ check : String → CheckResult, validateAssignees check none = ⟨[], [], []⟩) ∧
    (∀ check : String → CheckResult, validateAssignees check (some []) = ⟨[], [], []⟩) ∧
    (∀ (check : String → CheckResult) (l : List String),
      (validateAssignees check (some l)).valid = l.filter (fun a => (check a).isOk)) ∧
    (∀ (check : String → CheckResult) (l : List String),
      List.Sublist (validateAssignees check (some l)).valid l) ∧
    (∀ (check : String → CheckResult) (l : List String),
      (validateAssignees check (some l)).queries = l) ∧
    (validateAssignees exampleCheck (some ["alice", "bob"])).valid = ["alice"] ∧
    (validateAssignees exampleCheck (some ["alice", "bob"])).warnings =
      [assigneeWarning "bob" (.err (some 404) "Not Found")] := by
  refine ⟨fun _ => rfl, fun _ => rfl, validateAssignees_valid, ?_,
    validateAssignees_queries, by decide, by decide⟩
  intro check l
  rw [validateAssignees_valid]
  exact List.filter_sublist l

/-- C8: dry-run creation performs no remote create call and
deterministically returns the dry-run outcome carrying the issue's title. -/
theorem claim_C8_dry_run (create : Payload → CreateResult) (issue : NormalizedIssue) :
    createIssue create issue true = (.dryRun issue.title, []) := rfl

/-- C9: the non-dry-run creation payload carries title and body
unconditionally, labels/assignees exactly when non-empty (empty collections
are omitted, never sent as empty lists), and a milestone only when the
normalized issue has one. -/
theorem claim_C9_payload (issue : NormalizedIssue) :
    (buildPayload issue).title = issue.title ∧
    (buildPayload issue).body = issue.body ∧
    (buildPayload issue).labels =
      (if issue.labels = [] then none else some issue.labels) ∧
    (buildPayload issue).assignees =
      (if issue.assignees = [] then none else some issue.assignees) ∧
    (∀ n : Int, (buildPayload issue).milestone = some n → issue.milestone = some n) ∧
    (issue.milestone = none → (buildPayload issue).milestone = none) := by
  refine ⟨rfl, rfl, rfl, rfl, ?_, ?_⟩
  · intro n h
    unfold buildPayload at h
    cases hm : issue.milestone with
    | none => rw [hm] at h; exact absurd h (by simp)
    | some m =>
      rw [hm] at h
      by_cases h0 : m = 0 <;> simp [h0] at h
      rw [h]
  · intro h
    unfold buildPayload
    rw [h]

/-- C9 witness: the payload implications at concrete issues — a present
milestone landing in the payload traces back to the issue, and an absent
milestone is omitted. -/
theorem claim_C9_witness :
    issueEx2.milestone = some 3 ∧ (buildPayload issueEx3).milestone = none :=
  ⟨(claim_C9_payload issueEx2).2.2.2.2.1 3 rfl,
   (claim_C9_payload issueEx3).2.2.2.2.2 rfl⟩

/-- C4: a record whose title is missing, not a string, or blank after
trimming fails validation with the position-identifying error, regardless of
every other field, with zero remote calls (empty query log) issued for it. -/
theorem claim_C4_title_validation (check : String → CheckResult) (r : RawRecord)
    (index : Nat) (map : MilestoneMap) (h : titleInvalid r.title) :
    validateIssue check r index map = ⟨.error (titleError index), [], []⟩ := by
  have hb : badTitle r.title = true := by
    cases ht : r.title with
    | vStr s =>
      rw [ht] at h
      unfold titleInvalid at h
      simp [badTitle, h]
    | _ => rfl
  unfold validateIssue
  rw [hb]
  simp

/-- C4 witness: a titleless record at index 2, with a benign remote
environment, is rejected with the index-2 message and no remote query. -/
theorem claim_C4_witness :
    validateIssue env0.check badR 2 [] = ⟨.error (titleError 2), [], []⟩ :=
  claim_C4_title_validation env0.check badR 2 [] trivial

/-- C2 counterexample: the entire content of "05" parses as the integer 5,
and the map contains "05" as a title, yet resolution does not yield 5 — the
code's round-trip canonical-form check fails for "05", so the verbatim map
lookup wins. -/
theorem claim_C2_counterexample :
    entireContentInt "05" = some 5 ∧
    (resolveMilestone (.vStr "05") [("05", 7)]).1 = some 7 ∧
    (resolveMilestone (.vStr "05") [("05", 7)]).1 ≠ some 5 := by decide

/-- C2 (amended): milestone resolution precedence — a falsy reference
resolves to absent without warning; a numeric reference is used as-is; a
string that is exactly the canonical decimal representation of an integer
(the parsed value printed back equals the string) resolves to that integer
regardless of the map; any other string is looked up verbatim in the map;
when not found, resolution yields absent with a warning.  The worked
examples of the claim all hold. -/
theorem claim_C2_resolution :
    (∀ (map : MilestoneMap) (v : JVal),
      isTruthy v = false → resolveMilestone v map = (none, [])) ∧
    (∀ (map : MilestoneMap) (n : Int),
      n ≠ 0 → resolveMilestone (.vNum n) map = (some n, [])) ∧
    (∀ (map : MilestoneMap) (s : String) (p : Int),
      jsParseInt s = some p → toString p = s →
      resolveMilestone (.vStr s) map = (some p, [])) ∧
    (∀ (map : MilestoneMap) (s : String) (n : Int), s ≠ "" →
      (∀ p : Int, jsParseInt s = some p → toString p ≠ s) →
      List.lookup s map = some n →
      resolveMilestone (.vStr s) map = (some n, [])) ∧
    (∀ (map : MilestoneMap) (s : String), s ≠ "" →
      (∀ p : Int, jsParseInt s = some p → toString p ≠ s) →
      List.lookup s map = none →
      resolveMilestone (.vStr s) map = (none, [milestoneWarning (.vStr s)])) ∧
    resolveMilestone (.vStr "v1") [("v1", 10)] = (some 10, []) ∧
    resolveMilestone (.vStr "5") [("v1", 10)] = (some 5, []) ∧
    (resolveMilestone (.vStr "v2") [("v1", 10)]).1 = none ∧
    (resolveMilestone (.vStr "v2") [("v1", 10)]).2 =
      [milestoneWarning (.vStr "v2")] ∧
    resolveMilestone .vNull [("v1", 10)] = (none, []) := by
  refine ⟨?_, ?_, ?_, ?_, ?_, by decide, by decide, by decide, by decide, by decide⟩
  · intro map v h
    unfold resolveMilestone
    rw [h]
    simp
  · intro map n h
    have ht : isTruthy (.vNum n) = true := by simp [isTruthy, h]
    unfold resolveMilestone
    rw [ht]
    simp
  · intro map s p hp hts
    have hne : s ≠ "" := by
      intro h
      subst h
      rw [show jsParseInt "" = none from rfl] at hp
      exact Option.noConfusion hp
    have ht : isTruthy (.vStr s) = true := by simp [isTruthy, hne]
    unfold resolveMilestone
    rw [ht]
    simp only [jsToString, hp, hts]
    simp
  · intro map s n hne hnc hlook
    have ht : isTruthy (.vStr s) = true := by simp [isTruthy, hne]
    unfold resolveMilestone
    rw [ht]
    simp only [jsToString]
    cases hjp : jsParseInt s with
    | none => simp [hjp, mapGet, hlook]
    | some p =>
      have : toString p ≠ s := hnc p hjp
      simp [hjp, this, mapGet, hlook]
  · intro map s hne hnc hlook
    have ht : isTruthy (.vStr s) = true := by simp [isTruthy, hne]
    unfold resolveMilestone
    rw [ht]
    simp only [jsToString]
    cases hjp : jsParseInt s with
    | none => simp [hjp, mapGet, hlook]
    | some p =>
      have : toString p ≠ s := hnc p hjp
      simp [hjp, this, mapGet, hlook]

/-- C2 witness: the amended numeric-canonical rule applied at "7" against a
map that even contains "7" as a title — the parsed integer still wins. -/
theorem claim_C2_witness :
    resolveMilestone (.vStr "7") [("7", 99)] = (some 7, []) :=
  claim_C2_resolution.2.2.1 [("7", 99)] "7" 7 (by decide) (by decide)

/-- C7: non-dry-run creation never propagates a remote failure — any remote
failure becomes a `failed` outcome with the issue's title; a 422 with
structured field errors gets the "Validation Failed:" aggregate message
(field name, code and message of each error, semicolon-joined), every other
failure keeps the raw error message. -/
theorem claim_C7_create_failure (create : Payload → CreateResult)
    (issue : NormalizedIssue) (st : Option Int) (msg : String)
    (errs : Option (List FieldError)) (doc : Option String)
    (h : create (buildPayload issue) = .failure st msg errs doc) :
    createIssue create issue false =
      (.failed (.vStr issue.title) (errorMessageOf st msg errs),
        [buildPayload issue]) ∧
    (∀ es : List FieldError, st = some 422 → errs = some es →
      errorMessageOf st msg errs =
        "Validation Failed: " ++ String.intercalate "; " (es.map fieldErrorText)) ∧
    (st ≠ some 422 ∨ errs = none → errorMessageOf st msg errs = msg) := by
  refine ⟨?_, ?_, ?_⟩
  · simp [createIssue, h]
  · intro es h1 h2
    subst h1; subst h2
    rfl
  · intro h1
    unfold errorMessageOf
    split
    · rcases h1 with h1 | h1
      · exact absurd rfl h1
      · exact Option.noConfusion h1
    · rfl

/-- C7 witness: a concrete structured-422 failure is captured as a `failed`
outcome with the aggregate validation message. -/
theorem claim_C7_witness :
    createIssue failCreate issueEx false =
      (.failed (.vStr "T")
        (errorMessageOf (some 422) "Validation Failed"
          (some [⟨"title", "missing_field", none⟩])),
        [buildPayload issueEx]) :=
  (claim_C7_create_failure failCreate issueEx (some 422) "Validation Failed"
    (some [⟨"title", "missing_field", none⟩]) none rfl).1

/-- C1: the orchestrator's success count is the number of created/dry-run
outcomes, the failure count the number of failed outcomes, the summary is
the "Import completed: .. successful, .. failed" line over those counts, and
the run is reported failed iff the failure count is positive and the run is
not a dry run. -/
theorem claim_C1_summary_and_signal (env : Env) (map : MilestoneMap)
    (dryRun : Bool) (records : List RawRecord) :
    (runImport env map dryRun records).successCount =
      (runImport env map dryRun records).outcomes.countP isSuccessOutcome ∧
    (runImport env map dryRun records).failureCount =
      (runImport env map dryRun records).outcomes.countP
        (fun o => !isSuccessOutcome o) ∧
    (runImport env map dryRun records).summary =
      "Import completed: " ++
        toString (runImport env map dryRun records).successCount ++
        " successful, " ++
        toString (runImport env map dryRun records).failureCount ++ " failed" ∧
    ((runImport env map dryRun records).setFailed = true ↔
      0 < (runImport env map dryRun records).failureCount ∧ dryRun = false) := by
  refine ⟨runLoop_success_count env map dryRun records 0,
    runLoop_failure_count env map dryRun records 0, rfl, ?_⟩
  show (decide (0 < (runLoop env map dryRun records 0).2.2) && !dryRun) = true ↔
    0 < (runLoop env map dryRun records 0).2.2 ∧ dryRun = false
  simp

/-- C10: every input record is accounted for — the outcome sequence has one
outcome per record, and success count plus failure count equals the number
of records. -/
theorem claim_C10_accounting (env : Env) (map : MilestoneMap) (dryRun : Bool)
    (records : List RawRecord) (_h : records ≠ []) :
    (runImport env map dryRun records).outcomes.length = records.length ∧
    (runImport env map dryRun records).successCount +
      (runImport env map dryRun records).failureCount = records.length := by
  refine ⟨runLoop_length env map dryRun records 0, ?_⟩
  show (runLoop env map dryRun records 0).2.1 +
    (runLoop env map dryRun records 0).2.2 = records.length
  rw [runLoop_success_count, runLoop_failure_count,
    ← runLoop_length env map dryRun records 0,
    (runLoop env map dryRun records 0).1.length_eq_countP_add_countP isSuccessOutcome]
  congr 1
  apply List.countP_congr
  intro a _
  cases isSuccessOutcome a <;> simp

/-- C10 witness: one record, benign environment. -/
theorem claim_C10_witness :
    (runImport env0 [] false [r0]).outcomes.length = [r0].length ∧
    (runImport env0 [] false [r0]).successCount +
      (runImport env0 [] false [r0]).failureCount = [r0].length :=
  claim_C10_accounting env0 [] false [r0] (List.cons_ne_nil _ _)

/-- C3: a validation error on the record at position `i` is caught and
converted into a `failed` outcome at position `i` carrying the record's
best-effort title (`title || 'Unknown'`) and the error's message, while the
batch still produces one outcome for every record. -/
theorem claim_C3_validation_error_caught (env : Env) (map : MilestoneMap)
    (dryRun : Bool) (records : List RawRecord) (i : Nat) (r : RawRecord)
    (e : String) (hr : records[i]? = some r)
    (he : (validateIssue env.check r i map).result = .error e) :
    (runImport env map dryRun records).outcomes.length = records.length ∧
    (runImport env map dryRun records).outcomes[i]? =
      some (.failed (jsOr r.title (.vStr "Unknown")) e) := by
  refine ⟨runLoop_length env map dryRun records 0, ?_⟩
  show (runLoop env map dryRun records 0).1[i]? = _
  rw [runLoop_getElem, hr]
  simp only [Option.map_some', Nat.zero_add]
  unfold processRecord
  rw [he]

/-- C3 witness: a titleless record in a one-record dry-run batch yields the
placeholder-titled failure at position 0 and a full-length outcome list. -/
theorem claim_C3_witness :
    (runImport env0 [] true [badR]).outcomes.length = [badR].length ∧
    (runImport env0 [] true [badR]).outcomes[0]? =
      some (.failed (jsOr badR.title (.vStr "Unknown")) (titleError 0)) :=
  claim_C3_validation_error_caught env0 [] true [badR] 0 badR (titleError 0)
    rfl rfl

end IssueImporter
